import Mathlib

/-!
Verification of the match-session and fan-out subsystem of `src/server.py`
(a two-player rock-paper-scissors backend).  The Python handlers are embedded
as pure Lean functions over an explicit store of `Match` rows; HTTP errors
become `Except` errors carrying the status code and detail string, and the
commit/rollback discipline of the database session is reflected by returning the
updated store only on success.
-/

namespace RPS

/-- Row type of the `Match` SQLModel table (server.py lines 50-60).
`p2_id`, `p2_name`, `p1_move`, `p2_move` are nullable columns. -/
structure Match where
  id : String
  p1_id : String
  p1_name : String
  p1_ready : Bool
  p2_id : Option String
  p2_name : Option String
  p2_ready : Bool
  p1_move : Option String
  p2_move : Option String
  is_active : Bool
deriving DecidableEq

/-- An HTTP error response, as raised by `HTTPException(status_code, detail)`. -/
structure HErr where
  status : Nat
  detail : String
deriving DecidableEq

/-- JSON-like values, used to model the response dictionaries verbatim so the
presence and absence of keys is observable. -/
inductive JVal where
  | null : JVal
  | str : String → JVal
  | bool : Bool → JVal
  | obj : List (String × JVal) → JVal

/-- Key lookup in a JSON object field list (first occurrence). -/
def lookupFields : List (String × JVal) → String → Option JVal
  | [], _ => none
  | (k2, v) :: rest, k => if k2 = k then some v else lookupFields rest k

/-- Key lookup on a JSON value; only objects have members. -/
def jlookup (v : JVal) (k : String) : Option JVal :=
  match v with
  | .obj fields => lookupFields fields k
  | _ => none

/-- The keys of a JSON object, in order; other values have none. -/
def jkeys : JVal → List String
  | .obj fields => fields.map (fun p => p.1)
  | _ => []

/-- Python truthiness of an `Optional[str]` column: `None` and `""` are falsy.
Used for `if game.p2_id:` checks in server.py. -/
def optTruthy : Option String → Bool
  | none => false
  | some s => !(s == "")

/-- Serialize an `Optional[str]` column into JSON. -/
def optStr : Option String → JVal
  | none => .null
  | some s => .str s

/-- The `game_state` helper (server.py lines 239-248).  `get_game_state`
(lines 192-199) inlines a response dictionary that is textually identical to
this helper, so both are modelled by this one definition. -/
def game_state (g : Match) : JVal :=
  .obj [
    ("players", .obj [
      ("A", .obj [("id", .str g.p1_id), ("name", .str g.p1_name),
                  ("ready", .bool g.p1_ready)]),
      ("B", if optTruthy g.p2_id then
              .obj [("id", optStr g.p2_id), ("name", optStr g.p2_name),
                    ("ready", .bool g.p2_ready)]
            else .null)]),
    ("moves", .obj [("A", optStr g.p1_move), ("B", optStr g.p2_move)]),
    ("is_active", .bool g.is_active)]

/-- The database table: match id (primary key) to row.  `session.get(Match, id)`
is key lookup; a committed `session.add` replaces the row with that key. -/
abbrev Store := List (String × Match)

/-- `session.get(Match, game_id)`: primary-key lookup. -/
def findMatch : Store → String → Option Match
  | [], _ => none
  | (k, g) :: rest, gid => if k = gid then some g else findMatch rest gid

/-- A committed `session.add(game)`: upsert of the row keyed by `gid`. -/
def putMatch (st : Store) (gid : String) (g : Match) : Store :=
  (gid, g) :: st.filter (fun p => !(p.1 == gid))

/-- The blanket `except Exception: raise HTTPException(500, detail)` wrapper
that closes every endpoint in server.py.  Any exception raised in the body,
including an `HTTPException` with a 4xx status, is caught and replaced by a
500 response with the fixed detail string of the endpoint. -/
def wrap500 {α : Type} (detail : String) : Except HErr α → Except HErr α
  | .ok a => .ok a
  | .error _ => .error ⟨500, detail⟩

/-- Body of `create_game` (server.py lines 96-104).  `gid` and `pid` stand for
the two `uuid.uuid4()` draws made by the `Match` field defaults; the duplicate
primary-key branch models the database rejecting an id collision at commit. -/
def create_game_inner (st : Store) (gid pid : String) (player_name : String) :
    Except HErr (Store × JVal) :=
  if (findMatch st gid).isSome then
    .error ⟨500, "IntegrityError"⟩
  else
    let g : Match := ⟨gid, pid, player_name, false, none, none, false, none, none, true⟩
    .ok (putMatch st gid g,
      .obj [("game_id", .str g.id), ("player_id", .str g.p1_id), ("role", .str "A")])

/-- `create_game` endpoint (server.py lines 94-107): body plus the blanket
exception handler. -/
def create_game (st : Store) (gid pid : String) (player_name : String) :
    Except HErr (Store × JVal) :=
  wrap500 "Internal server error while creating game"
    (create_game_inner st gid pid player_name)

/-- Body of `join_game` (server.py lines 114-132).  `p2id` stands for the
`uuid.uuid4()` draw at line 125.  `if game.p2_id:` is Python truthiness. -/
def join_game_inner (st : Store) (p2id : String) (game_id player_name : String) :
    Except HErr (Store × JVal) :=
  match findMatch st game_id with
  | none => .error ⟨404, "Game not found"⟩
  | some g =>
    if optTruthy g.p2_id then
      .error ⟨400, "Game is full"⟩
    else
      let g2 := { g with p2_id := some p2id, p2_name := some player_name }
      .ok (putMatch st game_id g2,
        .obj [("game_id", .str g2.id), ("player_id", .str p2id), ("role", .str "B")])

/-- `join_game` endpoint (server.py lines 112-135): body plus the blanket
exception handler, which rewraps the 404 and 400 raised inside as a 500. -/
def join_game (st : Store) (p2id : String) (game_id player_name : String) :
    Except HErr (Store × JVal) :=
  wrap500 "Internal server error while joining game"
    (join_game_inner st p2id game_id player_name)

/-- Body of `set_ready` (server.py lines 139-155).  `player_id == game.p2_id`
compares a `str` with an `Optional[str]`, false when `p2_id` is `None`. -/
def set_ready_inner (st : Store) (game_id player_id : String) :
    Except HErr (Store × JVal) :=
  match findMatch st game_id with
  | none => .error ⟨404, "Game not found"⟩
  | some g =>
    if player_id = g.p1_id then
      let g2 := { g with p1_ready := true }
      .ok (putMatch st game_id g2, game_state g2)
    else if some player_id = g.p2_id then
      let g2 := { g with p2_ready := true }
      .ok (putMatch st game_id g2, game_state g2)
    else
      .error ⟨403, "Invalid player"⟩

/-- `set_ready` endpoint (server.py lines 137-158): body plus the blanket
exception handler. -/
def set_ready (st : Store) (game_id player_id : String) :
    Except HErr (Store × JVal) :=
  wrap500 "Internal server error while marking ready"
    (set_ready_inner st game_id player_id)

/-- Body of `submit_move` (server.py lines 162-178).  The move string is stored
verbatim in the slot of the caller; no enum check appears anywhere in the body. -/
def submit_move_inner (st : Store) (game_id player_id mv : String) :
    Except HErr (Store × JVal) :=
  match findMatch st game_id with
  | none => .error ⟨404, "Game not found"⟩
  | some g =>
    if player_id = g.p1_id then
      let g2 := { g with p1_move := some mv }
      .ok (putMatch st game_id g2, game_state g2)
    else if some player_id = g.p2_id then
      let g2 := { g with p2_move := some mv }
      .ok (putMatch st game_id g2, game_state g2)
    else
      .error ⟨403, "Invalid player"⟩

/-- `submit_move` endpoint (server.py lines 160-181): body plus the blanket
exception handler. -/
def submit_move (st : Store) (game_id player_id mv : String) :
    Except HErr (Store × JVal) :=
  wrap500 "Internal server error while submitting move"
    (submit_move_inner st game_id player_id mv)

/-- Body of `get_game_state` (server.py lines 185-199); its inline response
dictionary is identical to the `game_state` helper. -/
def get_game_state_inner (st : Store) (game_id : String) : Except HErr JVal :=
  match findMatch st game_id with
  | none => .error ⟨404, "Game not found"⟩
  | some g => .ok (game_state g)

/-- `get_game_state` endpoint (server.py lines 183-202): it takes only the
match id, no caller identifier. -/
def get_game_state (st : Store) (game_id : String) : Except HErr JVal :=
  wrap500 "Internal server error while getting game state"
    (get_game_state_inner st game_id)

/-- Abstract websocket connection handle. -/
abbrev Conn := Nat

/-- `ConnectionManager.active_connections` (server.py line 65): match id to the
set of registered connections. -/
abbrev Mgr := List (String × List Conn)

/-- The set of connections `ConnectionManager.broadcast` (lines 79-86) sends
to: the registered connections of `gid`, none when `gid` has no entry. -/
def mgrTargets : Mgr → String → List Conn
  | [], _ => []
  | (k, cs) :: rest, gid => if k = gid then cs else mgrTargets rest gid

/-- `ConnectionManager.connect` (lines 67-71): add the connection to the set
for `gid`, creating the entry if absent; set semantics, so re-adding an
already-registered connection changes nothing. -/
def mgrConnect (m : Mgr) (gid : String) (c : Conn) : Mgr :=
  match m with
  | [] => [(gid, [c])]
  | (k, cs) :: rest =>
    if k = gid then (k, if c ∈ cs then cs else c :: cs) :: rest
    else (k, cs) :: mgrConnect rest gid c

/-- Outcome of the websocket handshake in `websocket_endpoint`. -/
inductive WsResult where
  | refused : Nat → WsResult
  | accepted : Mgr → WsResult
deriving DecidableEq

/-- Registration phase of `websocket_endpoint` (server.py lines 206-220): the
connection is accepted and added to the registry only when the match exists,
`is_active` holds, and `player_id` is in `[game.p1_id, game.p2_id]`; every
other case closes the socket with code 1008 before `manager.connect`. -/
def websocket_register (st : Store) (m : Mgr) (c : Conn) (game_id player_id : String) :
    WsResult :=
  match findMatch st game_id with
  | none => .refused 1008
  | some g =>
    if !g.is_active then .refused 1008
    else if player_id = g.p1_id ∨ g.p2_id = some player_id then
      .accepted (mgrConnect m game_id c)
    else .refused 1008

/-- One request-level event of the running service: the three mutating
endpoints, and a subscribed client sending a text frame on its websocket. -/
inductive Event where
  | joinReq : String → String → String → Event
  | readyReq : String → String → Event
  | moveReq : String → String → String → Event
  | wsMsg : String → Event
deriving DecidableEq

/-- The state-snapshot pushes an event causes.  `join_game` (lines 112-135),
`set_ready` (lines 137-158) and `submit_move` (lines 160-181) contain no call
to `manager.broadcast`, so they push nothing; the only broadcast site is the
websocket receive loop (lines 223-226), which on each received frame sends the
current `get_game_state` snapshot to the registered connections of that match.
If `get_game_state` raises there, the handler closes the socket (line 232-234)
and nothing is pushed. -/
def stepPushes (st : Store) (m : Mgr) : Event → List (Conn × JVal)
  | .joinReq _ _ _ => []
  | .readyReq _ _ => []
  | .moveReq _ _ _ => []
  | .wsMsg gid =>
    match get_game_state st gid with
    | .error _ => []
    | .ok snap => (mgrTargets m gid).map (fun c => (c, snap))

/-- The end-to-end scenario of the spec: create with "Alice", join with "Bob",
player A plays rock, player B plays scissors, then read the state.  The
uuid draws are fixed as "M", "A1", "B1". -/
def rpsScenario : Except HErr JVal := do
  let r1 ← create_game [] "M" "A1" "Alice"
  let r2 ← join_game r1.1 "B1" "M" "Bob"
  let r3 ← submit_move r2.1 "M" "A1" "rock"
  let r4 ← submit_move r3.1 "M" "B1" "scissors"
  get_game_state r4.1 "M"

/-- A freshly created match: only player A populated. -/
def openMatch : Match :=
  ⟨"M", "A1", "Alice", false, none, none, false, none, none, true⟩

/-- A match after a successful join: both player slots populated, no moves. -/
def fullMatch : Match :=
  ⟨"M", "A1", "Alice", false, some "B1", some "Bob", false, none, none, true⟩

/-- Looking up the key just written by an upsert returns the new row. -/
theorem findMatch_putMatch (st : Store) (gid : String) (g : Match) :
    findMatch (putMatch st gid g) gid = some g := by
  simp [putMatch, findMatch]

/-- Filtering out a key twice is the same as filtering it out once. -/
theorem filter_ne_idem (st : Store) (gid : String) :
    (st.filter (fun p => !(p.1 == gid))).filter (fun p => !(p.1 == gid))
      = st.filter (fun p => !(p.1 == gid)) := by
  induction st with
  | nil => rfl
  | cons a t ih =>
    by_cases h : a.1 = gid
    · simp [List.filter_cons, h, ih]
    · simp [List.filter_cons, h, ih]

/-- Upserting the same key twice keeps only the second row. -/
theorem putMatch_putMatch (st : Store) (gid : String) (g g2 : Match) :
    putMatch (putMatch st gid g) gid g2 = putMatch st gid g2 := by
  simp [putMatch, List.filter_cons, filter_ne_idem]

/-- C1 counterexample: in the scenario create "Alice", join "Bob",
move(A1, rock), move(B1, scissors), the final `get_state` snapshot has no
`winner` member at all (so it does not return `winner = A1`); the server only
reports the two raw moves. -/
theorem judge_scenario_no_winner_field :
    rpsScenario.map (fun s => jlookup s "winner") = .ok none ∧
    rpsScenario.map (fun s => jlookup s "moves")
      = .ok (some (.obj [("A", .str "rock"), ("B", .str "scissors")])) :=
  ⟨rfl, rfl⟩

/-- C1 amended: `submit_move` records the move of the caller but never invokes
any judge; no `winner` is ever computed or stored, every state snapshot lacks
a `winner` member (its keys are exactly players, moves, is_active), and in the
rock-versus-scissors scenario `get_state` ends with both raw moves exposed and
no winner. -/
theorem no_winner_ever_computed :
    (∀ g : Match, jlookup (game_state g) "winner" = none) ∧
    (∀ g : Match, jkeys (game_state g) = ["players", "moves", "is_active"]) ∧
    rpsScenario.map (fun s => jlookup s "moves")
      = .ok (some (.obj [("A", .str "rock"), ("B", .str "scissors")])) ∧
    rpsScenario.map (fun s => jlookup s "winner") = .ok none :=
  ⟨fun _ => rfl, fun _ => rfl, rfl, rfl⟩

/-- C4 counterexample: `create_game` called with the empty player name
succeeds (no ValidationError, no 4xx) and stores a match whose `p1_name` is
the empty string. -/
theorem create_accepts_empty_name :
    create_game [] "M" "A1" ""
      = .ok ([("M", ⟨"M", "A1", "", false, none, none, false, none, none, true⟩)],
             .obj [("game_id", .str "M"), ("player_id", .str "A1"), ("role", .str "A")]) :=
  rfl

/-- C4 amended: `create_game` performs no name validation: for every supplied
name, the empty string included, it allocates a new match with only player A
populated (fresh ids, no player B, no moves, active) and returns the ids with
role A. -/
theorem create_populates_player_a_any_name (st : Store) (gid pid name : String)
    (h : findMatch st gid = none) :
    create_game st gid pid name
      = .ok (putMatch st gid ⟨gid, pid, name, false, none, none, false, none, none, true⟩,
             .obj [("game_id", .str gid), ("player_id", .str pid), ("role", .str "A")]) := by
  simp [create_game, create_game_inner, wrap500, h]

/-- Witness for C4 amended: concrete instance with the empty name. -/
theorem create_populates_player_a_any_name_witness :
    findMatch [] "M" = none ∧
    create_game [] "M" "A1" ""
      = .ok (putMatch [] "M" ⟨"M", "A1", "", false, none, none, false, none, none, true⟩,
             .obj [("game_id", .str "M"), ("player_id", .str "A1"), ("role", .str "A")]) :=
  ⟨rfl, create_populates_player_a_any_name [] "M" "A1" "" rfl⟩

/-- C5 counterexample: `submit_move` with the out-of-enum move "lizard"
succeeds (no ValidationError) and records the string verbatim as the move of
player A. -/
theorem submit_accepts_lizard :
    submit_move [("M", fullMatch)] "M" "A1" "lizard"
      = .ok ([("M", { fullMatch with p1_move := some "lizard" })],
             game_state { fullMatch with p1_move := some "lizard" }) ∧
    jlookup (game_state { fullMatch with p1_move := some "lizard" }) "moves"
      = some (.obj [("A", .str "lizard"), ("B", .null)]) :=
  ⟨rfl, rfl⟩

/-- C5 amended: `submit_move` performs no validation of the move value: any
string, values outside rock/paper/scissors included, is accepted and recorded
verbatim in the slot of the calling participant. -/
theorem submit_records_any_string (st : Store) (game_id mv : String) (g : Match)
    (h : findMatch st game_id = some g) :
    submit_move st game_id g.p1_id mv
      = .ok (putMatch st game_id { g with p1_move := some mv },
             game_state { g with p1_move := some mv }) ∧
    (∀ pid, g.p2_id = some pid → pid ≠ g.p1_id →
      submit_move st game_id pid mv
        = .ok (putMatch st game_id { g with p2_move := some mv },
               game_state { g with p2_move := some mv })) := by
  constructor
  · simp [submit_move, submit_move_inner, wrap500, h]
  · intro pid hp hne
    simp [submit_move, submit_move_inner, wrap500, h, hne, hp]

/-- Witness for C5 amended: player A records the string "dynamite". -/
theorem submit_records_any_string_witness :
    findMatch [("M", fullMatch)] "M" = some fullMatch ∧
    submit_move [("M", fullMatch)] "M" "A1" "dynamite"
      = .ok (putMatch [("M", fullMatch)] "M" { fullMatch with p1_move := some "dynamite" },
             game_state { fullMatch with p1_move := some "dynamite" }) :=
  ⟨rfl, (submit_records_any_string [("M", fullMatch)] "M" "dynamite" fullMatch rfl).1⟩

/-- C6: a second join on a full match does fail and leaves player B untouched,
but the 400 conflict response built at server.py line 123 is caught by the
blanket handler at line 133 and surfaced as a 500 internal error, not as a
4xx conflict. -/
theorem second_join_rewrapped_as_500 :
    join_game_inner [("M", fullMatch)] "C1" "M" "Carol" = .error ⟨400, "Game is full"⟩ ∧
    join_game [("M", fullMatch)] "C1" "M" "Carol"
      = .error ⟨500, "Internal server error while joining game"⟩ :=
  ⟨rfl, rfl⟩

/-- C7: a move submitted by a non-participant does fail and mutates nothing,
but the 403 forbidden response built at server.py line 175 is caught by the
blanket handler at line 179 and surfaced as a 500 internal error, not as a
4xx forbidden. -/
theorem stranger_move_rewrapped_as_500 :
    submit_move_inner [("M", fullMatch)] "M" "X9" "rock" = .error ⟨403, "Invalid player"⟩ ∧
    submit_move [("M", fullMatch)] "M" "X9" "rock"
      = .error ⟨500, "Internal server error while submitting move"⟩ :=
  ⟨rfl, rfl⟩

/-- C2 counterexample: with connection 0 registered for match "M", a
successful join of "M" pushes nothing to it: the mutation endpoints contain no
broadcast call, so the registered subscriber receives no snapshot. -/
theorem join_triggers_no_push :
    join_game [("M", openMatch)] "B1" "M" "Bob"
      = .ok ([("M", fullMatch)],
             .obj [("game_id", .str "M"), ("player_id", .str "B1"), ("role", .str "B")]) ∧
    mgrTargets [("M", [0])] "M" = [0] ∧
    stepPushes [("M", openMatch)] [("M", [0])] (.joinReq "M" "B1" "Bob") = [] :=
  ⟨rfl, rfl, rfl⟩

/-- C2 amended: the mutation endpoints (join, ready, move) trigger no
broadcast at all; a state snapshot is pushed only when a subscribed connection
sends a websocket frame for its match, and every such push goes to a
connection registered for that same match and carries the current
`get_game_state` snapshot of that match. -/
theorem broadcast_only_on_ws_message :
    (∀ st m gid pid name, stepPushes st m (.joinReq gid pid name) = []) ∧
    (∀ st m gid pid, stepPushes st m (.readyReq gid pid) = []) ∧
    (∀ st m gid pid mv, stepPushes st m (.moveReq gid pid mv) = []) ∧
    (∀ st m gid c snap, (c, snap) ∈ stepPushes st m (.wsMsg gid) →
      c ∈ mgrTargets m gid ∧ get_game_state st gid = .ok snap) := by
  refine ⟨fun _ _ _ _ _ => rfl, fun _ _ _ _ => rfl, fun _ _ _ _ _ => rfl, ?_⟩
  intro st m gid c snap hmem
  simp only [stepPushes] at hmem
  cases hg : get_game_state st gid with
  | error e => rw [hg] at hmem; simp at hmem
  | ok s =>
    rw [hg] at hmem
    simp only [List.mem_map] at hmem
    obtain ⟨c2, hc2, heq⟩ := hmem
    simp only [Prod.mk.injEq] at heq
    obtain ⟨rfl, rfl⟩ := heq
    exact ⟨hc2, rfl⟩

/-- Witness for C2 amended: a concrete frame from the subscriber of match "M"
is delivered to connection 0, which is registered for "M". -/
theorem broadcast_only_on_ws_message_witness :
    (0, game_state openMatch) ∈ stepPushes [("M", openMatch)] [("M", [0])] (.wsMsg "M") ∧
    (0 ∈ mgrTargets [("M", [0])] "M" ∧
      get_game_state [("M", openMatch)] "M" = .ok (game_state openMatch)) := by
  have hmem : (0, game_state openMatch)
      ∈ stepPushes [("M", openMatch)] [("M", [0])] (.wsMsg "M") := by
    show (0, game_state openMatch) ∈ [(0, game_state openMatch)]
    exact List.mem_singleton.mpr rfl
  exact ⟨hmem,
    broadcast_only_on_ws_message.2.2.2 [("M", openMatch)] [("M", [0])] "M" 0
      (game_state openMatch) hmem⟩

/-- C3 counterexample: for a concrete two-player match, the snapshot has no
`winner` member (neither in `game_state` nor through the endpoint), and the
player A object has exactly the keys id, name, ready: no move inside the
player objects. -/
theorem snapshot_lacks_winner_and_player_move :
    jlookup (game_state fullMatch) "winner" = none ∧
    (get_game_state [("M", fullMatch)] "M").map (fun s => jlookup s "winner") = .ok none ∧
    (jlookup (game_state fullMatch) "players").map (fun p => (jlookup p "A").map jkeys)
      = some (some ["id", "name", "ready"]) :=
  ⟨rfl, rfl, rfl⟩

/-- C3 amended: for every existing match, `get_state` returns the snapshot
with keys players, moves, is_active: the player objects carry id, name, ready
and nothing else, the moves appear in a separate top-level `moves` object,
there is no `winner` key, and an absent player B is represented as null. -/
theorem get_state_snapshot_shape (st : Store) (game_id : String) (g : Match)
    (h : findMatch st game_id = some g) :
    get_game_state st game_id = .ok (game_state g) ∧
    jkeys (game_state g) = ["players", "moves", "is_active"] ∧
    jlookup (game_state g) "winner" = none ∧
    jlookup (game_state g) "is_active" = some (.bool g.is_active) ∧
    jlookup (game_state g) "moves"
      = some (.obj [("A", optStr g.p1_move), ("B", optStr g.p2_move)]) ∧
    ∃ pA pB,
      jlookup (game_state g) "players" = some (.obj [("A", pA), ("B", pB)]) ∧
      jkeys pA = ["id", "name", "ready"] ∧
      jlookup pA "id" = some (.str g.p1_id) ∧
      jlookup pA "name" = some (.str g.p1_name) ∧
      jlookup pA "ready" = some (.bool g.p1_ready) ∧
      (optTruthy g.p2_id = false → pB = .null) ∧
      (optTruthy g.p2_id = true →
        pB = .obj [("id", optStr g.p2_id), ("name", optStr g.p2_name),
                   ("ready", .bool g.p2_ready)] ∧ jkeys pB = ["id", "name", "ready"]) := by
  refine ⟨?_, rfl, rfl, rfl, rfl, ?_⟩
  · simp [get_game_state, get_game_state_inner, wrap500, h]
  · refine ⟨_, _, rfl, rfl, rfl, rfl, rfl, ?_, ?_⟩
    · intro ht; simp [ht]
    · intro ht; simp [ht, jkeys]

/-- Witness for C3 amended: the shape facts at a concrete two-player match. -/
theorem get_state_snapshot_shape_witness :
    findMatch [("M", fullMatch)] "M" = some fullMatch ∧
    (get_game_state [("M", fullMatch)] "M" = .ok (game_state fullMatch) ∧
    jkeys (game_state fullMatch) = ["players", "moves", "is_active"] ∧
    jlookup (game_state fullMatch) "winner" = none ∧
    jlookup (game_state fullMatch) "is_active" = some (.bool fullMatch.is_active) ∧
    jlookup (game_state fullMatch) "moves"
      = some (.obj [("A", optStr fullMatch.p1_move), ("B", optStr fullMatch.p2_move)]) ∧
    ∃ pA pB,
      jlookup (game_state fullMatch) "players" = some (.obj [("A", pA), ("B", pB)]) ∧
      jkeys pA = ["id", "name", "ready"] ∧
      jlookup pA "id" = some (.str fullMatch.p1_id) ∧
      jlookup pA "name" = some (.str fullMatch.p1_name) ∧
      jlookup pA "ready" = some (.bool fullMatch.p1_ready) ∧
      (optTruthy fullMatch.p2_id = false → pB = .null) ∧
      (optTruthy fullMatch.p2_id = true →
        pB = .obj [("id", optStr fullMatch.p2_id), ("name", optStr fullMatch.p2_name),
                   ("ready", .bool fullMatch.p2_ready)] ∧
          jkeys pB = ["id", "name", "ready"])) :=
  ⟨rfl, get_state_snapshot_shape [("M", fullMatch)] "M" fullMatch rfl⟩

/-- C8: `set_ready` by a valid participant succeeds, sets the ready flag of
the matching slot to true, and re-invoking it on the resulting state is a
no-op: the second call returns exactly the same store and snapshot, with no
error. -/
theorem set_ready_idempotent (st : Store) (game_id player_id : String) (g : Match)
    (h : findMatch st game_id = some g)
    (hp : player_id = g.p1_id ∨ g.p2_id = some player_id) :
    ∃ st2 g2,
      set_ready st game_id player_id = .ok (st2, game_state g2) ∧
      (player_id = g.p1_id → g2 = { g with p1_ready := true }) ∧
      (player_id ≠ g.p1_id → g2 = { g with p2_ready := true }) ∧
      set_ready st2 game_id player_id = .ok (st2, game_state g2) := by
  by_cases h1 : player_id = g.p1_id
  · refine ⟨putMatch st game_id { g with p1_ready := true }, { g with p1_ready := true },
      ?_, fun _ => rfl, fun hc => absurd h1 hc, ?_⟩
    · simp [set_ready, set_ready_inner, wrap500, h, h1]
    · have h2 := findMatch_putMatch st game_id { g with p1_ready := true }
      simp [set_ready, set_ready_inner, wrap500, h2, h1, putMatch_putMatch]
  · have h2 : g.p2_id = some player_id := hp.resolve_left h1
    refine ⟨putMatch st game_id { g with p2_ready := true }, { g with p2_ready := true },
      ?_, fun hc => absurd hc h1, fun _ => rfl, ?_⟩
    · simp [set_ready, set_ready_inner, wrap500, h, h1, h2]
    · have h3 := findMatch_putMatch st game_id { g with p2_ready := true }
      rw [h2] at h3
      simp [set_ready, set_ready_inner, wrap500, h3, h1, h2, putMatch_putMatch]

/-- Witness for C8: player A1 of a concrete match readies twice; the second
call is a no-op returning the same store and snapshot. -/
theorem set_ready_idempotent_witness :
    (findMatch [("M", fullMatch)] "M" = some fullMatch ∧
      ("A1" = fullMatch.p1_id ∨ fullMatch.p2_id = some "A1")) ∧
    ∃ st2 g2,
      set_ready [("M", fullMatch)] "M" "A1" = .ok (st2, game_state g2) ∧
      ("A1" = fullMatch.p1_id → g2 = { fullMatch with p1_ready := true }) ∧
      ("A1" ≠ fullMatch.p1_id → g2 = { fullMatch with p2_ready := true }) ∧
      set_ready st2 "M" "A1" = .ok (st2, game_state g2) :=
  ⟨⟨rfl, Or.inl rfl⟩,
    set_ready_idempotent [("M", fullMatch)] "M" "A1" fullMatch rfl (Or.inl rfl)⟩

/-- C9: the websocket handshake accepts and registers the connection exactly
when the match exists, is active, and the identifier is one of the two
participants; in every other case it refuses with close code 1008 (policy
violation) and the registry is not extended. -/
theorem ws_register_validates_participant (st : Store) (m : Mgr) (c : Conn)
    (game_id player_id : String) :
    (websocket_register st m c game_id player_id = .accepted (mgrConnect m game_id c) ↔
      ∃ g, findMatch st game_id = some g ∧ g.is_active = true ∧
        (player_id = g.p1_id ∨ g.p2_id = some player_id)) ∧
    (websocket_register st m c game_id player_id = .refused 1008 ↔
      ¬ ∃ g, findMatch st game_id = some g ∧ g.is_active = true ∧
        (player_id = g.p1_id ∨ g.p2_id = some player_id)) := by
  unfold websocket_register
  cases hf : findMatch st game_id with
  | none => simp [hf]
  | some g =>
    cases ha : g.is_active with
    | false => simp [ha]
    | true =>
      by_cases hpp : player_id = g.p1_id ∨ g.p2_id = some player_id
      · simp [ha, hpp]
      · simp [ha, hpp]

/-- C10: `get_state` takes only the match id and unconditionally exposes both
submitted moves in the top-level `moves` object: after player A submits a
move, any caller reading the state sees it there, including when player B has
not moved (or even joined). -/
theorem get_state_public_moves (st : Store) (game_id mv : String) (g : Match)
    (h : findMatch st game_id = some g) :
    get_game_state st game_id = .ok (game_state g) ∧
    jlookup (game_state g) "moves"
      = some (.obj [("A", optStr g.p1_move), ("B", optStr g.p2_move)]) ∧
    submit_move st game_id g.p1_id mv
      = .ok (putMatch st game_id { g with p1_move := some mv },
             game_state { g with p1_move := some mv }) ∧
    get_game_state (putMatch st game_id { g with p1_move := some mv }) game_id
      = .ok (game_state { g with p1_move := some mv }) ∧
    jlookup (game_state { g with p1_move := some mv }) "moves"
      = some (.obj [("A", .str mv), ("B", optStr g.p2_move)]) := by
  refine ⟨?_, rfl, ?_, ?_, rfl⟩
  · simp [get_game_state, get_game_state_inner, wrap500, h]
  · simp [submit_move, submit_move_inner, wrap500, h]
  · simp [get_game_state, get_game_state_inner, wrap500, findMatch_putMatch]

/-- Witness for C10: player A of a one-player match plays rock; the state read
afterwards shows move A as rock with player B absent and not having moved. -/
theorem get_state_public_moves_witness :
    findMatch [("M", openMatch)] "M" = some openMatch ∧
    (get_game_state [("M", openMatch)] "M" = .ok (game_state openMatch) ∧
    jlookup (game_state openMatch) "moves"
      = some (.obj [("A", optStr openMatch.p1_move), ("B", optStr openMatch.p2_move)]) ∧
    submit_move [("M", openMatch)] "M" openMatch.p1_id "rock"
      = .ok (putMatch [("M", openMatch)] "M" { openMatch with p1_move := some "rock" },
             game_state { openMatch with p1_move := some "rock" }) ∧
    get_game_state (putMatch [("M", openMatch)] "M" { openMatch with p1_move := some "rock" }) "M"
      = .ok (game_state { openMatch with p1_move := some "rock" }) ∧
    jlookup (game_state { openMatch with p1_move := some "rock" }) "moves"
      = some (.obj [("A", .str "rock"), ("B", optStr openMatch.p2_move)])) :=
  ⟨rfl, get_state_public_moves [("M", openMatch)] "M" "rock" openMatch rfl⟩

end RPS
